import Mathlib

/-!
Shallow embedding of `src/lib/cdk-aws-api-gateway-security-stack.ts`: the
declarative resource graph built by the constructor of
`CdkAwsApiGatewaySecurityStack` (Cognito user pool, resource server with two
scopes, Cognito domain, two OAuth clients, one HTTP user-pool authorizer, two
Lambda functions and an HTTP API with two routes), together with theorems
checking the specification's claims against that graph.
-/

namespace ApiGwSec

/-- Removal policy attached to a resource (cdk.RemovalPolicy). -/
inductive RemovalPolicy where
  | DESTROY
  | RETAIN
deriving DecidableEq, Repr

/-- Account-recovery setting of a user pool (cognito.AccountRecovery). -/
inductive AccountRecovery where
  | EMAIL_ONLY
  | PHONE_ONLY
  | EMAIL_AND_PHONE_WITHOUT_MFA
deriving DecidableEq, Repr

/-- Sign-in aliases of a user pool; the source only sets `email`. -/
structure SignInAliases where
  email : Bool
deriving DecidableEq, Repr

/-- Attributes Cognito automatically requests verification for. -/
structure AutoVerify where
  email : Bool
deriving DecidableEq, Repr

/-- Password policy of a user pool. -/
structure PasswordPolicy where
  minLength : Nat
  requireLowercase : Bool
  requireDigits : Bool
  requireUppercase : Bool
  requireSymbols : Bool
deriving DecidableEq, Repr

/-- A Cognito user pool as configured by the stack (lines 17-31). -/
structure UserPool where
  userPoolName : String
  removalPolicy : RemovalPolicy
  selfSignUpEnabled : Bool
  signInAliases : SignInAliases
  autoVerify : AutoVerify
  passwordPolicy : PasswordPolicy
  accountRecovery : AccountRecovery
deriving DecidableEq, Repr

/-- A scope declared on a resource server (cognito.ResourceServerScope). -/
structure ResourceServerScope where
  scopeName : String
  scopeDescription : String
deriving DecidableEq, Repr

/-- Options passed to `userPool.addResourceServer`. -/
structure ResourceServerOptions where
  identifier : String
  scopes : List ResourceServerScope
deriving DecidableEq, Repr

/-- The resource server created by `addResourceServer`; its
`userPoolResourceServerId` is the identifier given in the options. -/
structure UserPoolResourceServer where
  userPoolResourceServerId : String
  scopes : List ResourceServerScope
deriving DecidableEq, Repr

/-- `userPool.addResourceServer(id, props)` (line 43). -/
def UserPool.addResourceServer (_pool : UserPool) (_cid : String)
    (opts : ResourceServerOptions) : UserPoolResourceServer :=
  { userPoolResourceServerId := opts.identifier, scopes := opts.scopes }

/-- Options for a Cognito-hosted domain; `domainPfx` models the
`domainPrefix` property of the source. -/
structure CognitoDomainOptions where
  domainPfx : String
deriving DecidableEq, Repr

/-- The user-pool domain created by `addDomain`. -/
structure UserPoolDomain where
  domainPfx : String
deriving DecidableEq, Repr

/-- `userPool.addDomain(id, props)` (line 48). -/
def UserPool.addDomain (_pool : UserPool) (_cid : String)
    (opts : CognitoDomainOptions) : UserPoolDomain :=
  { domainPfx := opts.domainPfx }

/-- Authentication flows enabled for a user-pool client; fields default to
false as in the framework when a flag is omitted. -/
structure AuthFlows where
  adminUserPassword : Bool := false
  userPassword : Bool := false
  custom : Bool := false
  userSrp : Bool := false
deriving DecidableEq, Repr

/-- OAuth grant flows enabled for a client; the source enables only
`clientCredentials`, the other grants keep their default false. -/
structure OAuthFlows where
  authorizationCodeGrant : Bool := false
  implicitCodeGrant : Bool := false
  clientCredentials : Bool := false
deriving DecidableEq, Repr

/-- `cognito.OAuthScope.resourceServer(server, scope)` produces the full
scope string `<resourceServerId>/<scopeName>`. -/
def OAuthScope.resourceServer (server : UserPoolResourceServer)
    (scope : ResourceServerScope) : String :=
  server.userPoolResourceServerId ++ "/" ++ scope.scopeName

/-- The `oAuth` block of a user-pool client: granted scope strings and
enabled grant flows. -/
structure OAuthSettings where
  scopes : List String
  flows : OAuthFlows
deriving DecidableEq, Repr

/-- Identity providers a client may use (cognito.UserPoolClientIdentityProvider). -/
inductive UserPoolClientIdentityProvider where
  | COGNITO
  | FACEBOOK
  | GOOGLE
  | AMAZON
  | APPLE
deriving DecidableEq, Repr

/-- A user-pool client as configured by the stack (lines 55-99). -/
structure UserPoolClient where
  constructId : String
  userPool : UserPool
  authFlows : AuthFlows
  oAuth : OAuthSettings
  generateSecret : Bool
  supportedIdentityProviders : List UserPoolClientIdentityProvider
deriving DecidableEq, Repr

/-- The HTTP user-pool authorizer (lines 102-105): it references the user
pool and the list of valid user-pool clients. -/
structure HttpUserPoolAuthorizer where
  constructId : String
  userPool : UserPool
  userPoolClients : List UserPoolClient
deriving DecidableEq, Repr

/-- Lambda runtime used by the stack. -/
inductive Runtime where
  | NODEJS_14_X
deriving DecidableEq, Repr

/-- Bundling options of a NodejsFunction. -/
structure BundlingOptions where
  minify : Bool
  externalModules : List String
deriving DecidableEq, Repr

/-- A lambdaNodeJs.NodejsFunction as declared by the stack (lines 108-126). -/
structure NodejsFunction where
  constructId : String
  runtime : Runtime
  handler : String
  entry : String
  bundling : BundlingOptions
deriving DecidableEq, Repr

/-- `path.join(a, b)` for the two-argument uses in the source, where the
second argument starts with a separator. -/
def pathJoin (a b : String) : String := a ++ b

/-- The directory of the stack module (`__dirname` of the compiled file). -/
def dirnameOfLib : String := "lib"

/-- HTTP methods of apigwv2.HttpMethod. -/
inductive HttpMethod where
  | GET
  | POST
  | PUT
  | DELETE
  | ANY
deriving DecidableEq, Repr

/-- An HttpLambdaIntegration: a named binding of a route to a function. -/
structure HttpLambdaIntegration where
  constructId : String
  handler : NodejsFunction
deriving DecidableEq, Repr

/-- A route of the HTTP API as added by `addRoutes` (lines 135-149). -/
structure Route where
  path : String
  methods : List HttpMethod
  authorizer : HttpUserPoolAuthorizer
  authorizationScopes : List String
  integration : HttpLambdaIntegration
deriving DecidableEq, Repr

/-- The HTTP API (lines 129-132) together with the routes added to it. -/
structure HttpApi where
  apiName : String
  description : String
  routes : List Route
deriving DecidableEq, Repr

/-- The options record passed to `httpApi.addRoutes`. -/
structure AddRoutesOptions where
  integration : HttpLambdaIntegration
  path : String
  methods : List HttpMethod
  authorizer : HttpUserPoolAuthorizer
  authorizationScopes : List String
deriving DecidableEq, Repr

/-- `httpApi.addRoutes(options)` appends one route built from the options. -/
def HttpApi.addRoutes (api : HttpApi) (opts : AddRoutesOptions) : HttpApi :=
  { api with
    routes := api.routes ++
      [{ path := opts.path, methods := opts.methods,
         authorizer := opts.authorizer,
         authorizationScopes := opts.authorizationScopes,
         integration := opts.integration }] }

/-- Stack properties; the constructor never reads them, they are carried
for fidelity to the `props?: StackProps` parameter. -/
structure StackProps where
  description : Option String := none
  stackName : Option String := none
deriving DecidableEq, Repr

/-- The resource graph produced by one instantiation of
`CdkAwsApiGatewaySecurityStack`. -/
structure CdkAwsApiGatewaySecurityStack where
  userPool : UserPool
  publicScope : ResourceServerScope
  secureScope : ResourceServerScope
  resourceServer : UserPoolResourceServer
  cognitoDomain : UserPoolDomain
  readOnlyClient : UserPoolClient
  fullAccessClient : UserPoolClient
  authorizer : HttpUserPoolAuthorizer
  secureLambda : NodejsFunction
  publicLambda : NodejsFunction
  httpApi : HttpApi
  outputs : List String
deriving DecidableEq, Repr

/-- The user pool of lines 17-31. -/
def userPool : UserPool :=
  { userPoolName := "my-user-pool"
    removalPolicy := RemovalPolicy.DESTROY
    selfSignUpEnabled := true
    signInAliases := { email := true }
    autoVerify := { email := true }
    passwordPolicy :=
      { minLength := 6
        requireLowercase := false
        requireDigits := false
        requireUppercase := false
        requireSymbols := false }
    accountRecovery := AccountRecovery.EMAIL_ONLY }

/-- The `public` scope of lines 33-36. -/
def publicScope : ResourceServerScope :=
  { scopeName := "public", scopeDescription := "Read-only access" }

/-- The `secure` scope of lines 38-41. -/
def secureScope : ResourceServerScope :=
  { scopeName := "secure", scopeDescription := "Full access" }

/-- The resource server of lines 43-46. -/
def resourceServer : UserPoolResourceServer :=
  userPool.addResourceServer "ResourceServer"
    { identifier := "resource", scopes := [publicScope, secureScope] }

/-- The Cognito domain of lines 48-52. -/
def cognitoDomain : UserPoolDomain :=
  userPool.addDomain "CognitoDomain"
    { domainPfx := "client-credentials-demo" }

/-- The read-only client of lines 55-75. -/
def readOnlyClient : UserPoolClient :=
  { constructId := "read-only-client"
    userPool := userPool
    authFlows :=
      { adminUserPassword := true
        userPassword := true
        custom := true
        userSrp := true }
    oAuth :=
      { scopes := [OAuthScope.resourceServer resourceServer publicScope]
        flows := { clientCredentials := true } }
    generateSecret := true
    supportedIdentityProviders := [UserPoolClientIdentityProvider.COGNITO] }

/-- The full-access client of lines 78-99. -/
def fullAccessClient : UserPoolClient :=
  { constructId := "full-access-client"
    userPool := userPool
    authFlows :=
      { adminUserPassword := true
        userPassword := true
        custom := true
        userSrp := true }
    oAuth :=
      { scopes :=
          [OAuthScope.resourceServer resourceServer publicScope,
           OAuthScope.resourceServer resourceServer secureScope]
        flows := { clientCredentials := true } }
    generateSecret := true
    supportedIdentityProviders := [UserPoolClientIdentityProvider.COGNITO] }

/-- The authorizer of lines 102-105. -/
def authorizer : HttpUserPoolAuthorizer :=
  { constructId := "user-pool-authorizer"
    userPool := userPool
    userPoolClients := [readOnlyClient, fullAccessClient] }

/-- The secure lambda of lines 108-116. -/
def secureLambda : NodejsFunction :=
  { constructId := "get-user-info-lambda"
    runtime := Runtime.NODEJS_14_X
    handler := "secure"
    entry := pathJoin dirnameOfLib "/../src/secure/index.ts"
    bundling := { minify := true, externalModules := ["aws-sdk"] } }

/-- The public lambda of lines 118-126. -/
def publicLambda : NodejsFunction :=
  { constructId := "get-app-info-lambda"
    runtime := Runtime.NODEJS_14_X
    handler := "app"
    entry := pathJoin dirnameOfLib "/../src/public/index.ts"
    bundling := { minify := true, externalModules := ["aws-sdk"] } }

/-- The HTTP API of lines 129-132, before any route is added. -/
def httpApiBase : HttpApi :=
  { apiName := "http-api-demo", description := "HTTP API example", routes := [] }

/-- The HTTP API after the two `addRoutes` calls of lines 135-149, in
source order: first `/api/secure`, then `/api/public`. -/
def httpApi : HttpApi :=
  (httpApiBase.addRoutes
    { integration := { constructId := "secure-fn-integration", handler := secureLambda }
      path := "/api/secure"
      methods := [HttpMethod.GET]
      authorizer := authorizer
      authorizationScopes := ["resource/secure"] }).addRoutes
    { integration := { constructId := "public-fn-integration", handler := publicLambda }
      path := "/api/public"
      methods := [HttpMethod.GET]
      authorizer := authorizer
      authorizationScopes := ["resource/public"] }

/-- The constructor of `CdkAwsApiGatewaySecurityStack` (lines 13-158): it
ignores the construct id and the optional props and builds the same
resource graph every time. -/
def CdkAwsApiGatewaySecurityStack.construct (_cid : String)
    (_props : Option StackProps) : CdkAwsApiGatewaySecurityStack :=
  { userPool := ApiGwSec.userPool
    publicScope := ApiGwSec.publicScope
    secureScope := ApiGwSec.secureScope
    resourceServer := ApiGwSec.resourceServer
    cognitoDomain := ApiGwSec.cognitoDomain
    readOnlyClient := ApiGwSec.readOnlyClient
    fullAccessClient := ApiGwSec.fullAccessClient
    authorizer := ApiGwSec.authorizer
    secureLambda := ApiGwSec.secureLambda
    publicLambda := ApiGwSec.publicLambda
    httpApi := ApiGwSec.httpApi
    outputs := ["region", "userPoolId", "apiUrl"] }

/-- The full scope strings declared by a resource server:
`<resourceServerId>/<scopeName>` for each declared scope. -/
def declaredScopeStrings (rs : UserPoolResourceServer) : List String :=
  rs.scopes.map (fun sc => rs.userPoolResourceServerId ++ "/" ++ sc.scopeName)

/-- Modelled from the spec: a bearer token as issued by the Identity
Directory through the client-credentials grant. The repository contains no
token-issuance code; spec section 6 says consumers present a client's
credentials and "receive a bearer token scoped to the client's granted
scopes". `clientId` names the OAuth client the token was issued to (by its
construct id) and `scopes` lists the token's granted scope strings. -/
structure BearerToken where
  clientId : String
  scopes : List String
deriving DecidableEq, Repr

/-- Modelled from the spec: the Identity Directory issues a token to client
`c` only with scopes drawn from the scopes granted to `c` (spec sections 6
and 8); token issuance is performed by the managed identity service, not by
code of this repository. -/
def tokenIssuedTo (c : UserPoolClient) (t : BearerToken) : Bool :=
  t.clientId == c.constructId &&
    t.scopes.all (fun s => c.oAuth.scopes.contains s)

/-- Modelled from the spec: the Authorizer contract of section 4.4 — "given
an incoming bearer token and a route's required scope, accept the request
only if the token was issued by the Identity Directory to one of the two
registered Clients AND the token's granted scopes include the route's
required scope"; section 8 adds that a request with no token is rejected.
The runtime enforcement is performed by the managed gateway service and is
absent from this repository's source. -/
def authorizerAccepts (a : HttpUserPoolAuthorizer) (requiredScopes : List String)
    (tok : Option BearerToken) : Bool :=
  match tok with
  | none => false
  | some t =>
      a.userPoolClients.any (fun c => c.constructId == t.clientId) &&
        requiredScopes.all (fun s => t.scopes.contains s)

/-- Helper: acceptance characterisation of the spec-modelled authorizer on
a present token. -/
theorem authorizerAccepts_some_iff (a : HttpUserPoolAuthorizer)
    (req : List String) (t : BearerToken) :
    authorizerAccepts a req (some t) = true ↔
      ((∃ c ∈ a.userPoolClients, c.constructId = t.clientId) ∧
        ∀ sc ∈ req, sc ∈ t.scopes) := by
  simp [authorizerAccepts, List.any_eq_true, List.all_eq_true, beq_iff_eq]

/-- Helper: a client registered with the stack authorizer matches a token's
client id exactly when that id is one of the two declared client ids. -/
theorem exists_registered_client_iff (t : BearerToken) :
    (∃ c ∈ authorizer.userPoolClients, c.constructId = t.clientId) ↔
      (t.clientId = "read-only-client" ∨ t.clientId = "full-access-client") := by
  constructor
  · rintro ⟨c, hc, hcid⟩
    rcases List.mem_cons.mp hc with h1 | hc1
    · left; rw [h1] at hcid; exact hcid.symm
    · rcases List.mem_cons.mp hc1 with h2 | h0
      · right; rw [h2] at hcid; exact hcid.symm
      · exact absurd h0 (List.not_mem_nil c)
  · rintro (h1 | h2)
    · exact ⟨readOnlyClient, List.mem_cons_self _ _, h1.symm⟩
    · exact ⟨fullAccessClient, List.mem_cons.mpr (Or.inr (List.mem_cons_self _ _)), h2.symm⟩

/-- C1: at each of the stack's two routes, the spec-modelled authorizer
accepts a bearer token exactly when the token was issued to one of the two
registered clients (`read-only-client` or `full-access-client`) and the
token's granted scopes include the route's required scopes; a request with
no token is rejected at every route; a token from an unregistered client is
rejected at every route; the routes pair `/api/secure` with required scope
`resource/secure` and `/api/public` with `resource/public` under the one
authorizer; and a token issued to the read-only client — or any token
carrying only the public scope — is rejected at `/api/secure`. -/
theorem authorizer_contract (cid : String) (props : Option StackProps) (t : BearerToken) :
    (∀ r ∈ (CdkAwsApiGatewaySecurityStack.construct cid props).httpApi.routes,
        (authorizerAccepts r.authorizer r.authorizationScopes (some t) = true ↔
          ((t.clientId = "read-only-client" ∨ t.clientId = "full-access-client") ∧
            ∀ sc ∈ r.authorizationScopes, sc ∈ t.scopes))) ∧
    (∀ r ∈ (CdkAwsApiGatewaySecurityStack.construct cid props).httpApi.routes,
        authorizerAccepts r.authorizer r.authorizationScopes none = false) ∧
    ((∀ c ∈ (CdkAwsApiGatewaySecurityStack.construct cid props).authorizer.userPoolClients,
          c.constructId ≠ t.clientId) →
      ∀ r ∈ (CdkAwsApiGatewaySecurityStack.construct cid props).httpApi.routes,
        authorizerAccepts r.authorizer r.authorizationScopes (some t) = false) ∧
    ((CdkAwsApiGatewaySecurityStack.construct cid props).httpApi.routes.map
        (fun r => (r.path, r.authorizationScopes, r.authorizer)) =
      [("/api/secure", ["resource/secure"],
          (CdkAwsApiGatewaySecurityStack.construct cid props).authorizer),
       ("/api/public", ["resource/public"],
          (CdkAwsApiGatewaySecurityStack.construct cid props).authorizer)]) ∧
    (tokenIssuedTo (CdkAwsApiGatewaySecurityStack.construct cid props).readOnlyClient t = true →
      authorizerAccepts (CdkAwsApiGatewaySecurityStack.construct cid props).authorizer
        ["resource/secure"] (some t) = false) ∧
    (t.scopes = ["resource/public"] →
      authorizerAccepts (CdkAwsApiGatewaySecurityStack.construct cid props).authorizer
        ["resource/secure"] (some t) = false) := by
  have hroutes : (CdkAwsApiGatewaySecurityStack.construct cid props).httpApi.routes =
      [{ path := "/api/secure", methods := [HttpMethod.GET], authorizer := authorizer,
         authorizationScopes := ["resource/secure"],
         integration := { constructId := "secure-fn-integration", handler := secureLambda } },
       { path := "/api/public", methods := [HttpMethod.GET], authorizer := authorizer,
         authorizationScopes := ["resource/public"],
         integration := { constructId := "public-fn-integration", handler := publicLambda } }] := rfl
  refine ⟨?_, ?_, ?_, ?_, ?_, ?_⟩
  · intro r hr
    rw [hroutes] at hr
    rcases List.mem_cons.mp hr with h | hr1
    · subst h
      rw [authorizerAccepts_some_iff]
      exact and_congr_left' (exists_registered_client_iff t)
    · rcases List.mem_cons.mp hr1 with h | hr2
      · subst h
        rw [authorizerAccepts_some_iff]
        exact and_congr_left' (exists_registered_client_iff t)
      · exact absurd hr2 (List.not_mem_nil r)
  · intro r _hr
    rfl
  · intro hnone r hr
    rw [hroutes] at hr
    have hro : readOnlyClient.constructId ≠ t.clientId :=
      hnone readOnlyClient (List.mem_cons_self _ _)
    have hfa : fullAccessClient.constructId ≠ t.clientId :=
      hnone fullAccessClient (List.mem_cons.mpr (Or.inr (List.mem_cons_self _ _)))
    have hroF : (readOnlyClient.constructId == t.clientId) = false :=
      beq_eq_false_iff_ne.mpr hro
    have hfaF : (fullAccessClient.constructId == t.clientId) = false :=
      beq_eq_false_iff_ne.mpr hfa
    have hany : authorizer.userPoolClients.any
        (fun c => c.constructId == t.clientId) = false := by
      simp only [authorizer, List.any_cons, List.any_nil, hroF, hfaF, Bool.or_false]
    rcases List.mem_cons.mp hr with h | hr1
    · subst h
      simp [authorizerAccepts, hany]
    · rcases List.mem_cons.mp hr1 with h | hr2
      · subst h
        simp [authorizerAccepts, hany]
      · exact absurd hr2 (List.not_mem_nil r)
  · rfl
  · intro hissued
    have hsub : ∀ sc ∈ t.scopes, sc = "resource/public" := by
      have h2 := ((Bool.and_eq_true _ _).mp hissued).2
      intro sc hsc
      have h3 := List.all_eq_true.mp h2 sc hsc
      simpa [CdkAwsApiGatewaySecurityStack.construct, readOnlyClient,
        OAuthScope.resourceServer, resourceServer, publicScope,
        UserPool.addResourceServer] using h3
    have hcontains : t.scopes.contains "resource/secure" = false := by
      cases hc : t.scopes.contains "resource/secure" with
      | false => rfl
      | true =>
        have hmem : "resource/secure" ∈ t.scopes := by simpa using hc
        have hbad := hsub _ hmem
        simp at hbad
    show (authorizer.userPoolClients.any (fun c => c.constructId == t.clientId) &&
        (["resource/secure"] : List String).all (fun s => t.scopes.contains s)) = false
    simp [List.all_cons, List.all_nil, hcontains]
    intro x _hx _hcid hmem
    exact absurd (hsub _ hmem) (by decide)
  · intro hscopes
    show (authorizer.userPoolClients.any (fun c => c.constructId == t.clientId) &&
        (["resource/secure"] : List String).all (fun s => t.scopes.contains s)) = false
    rw [hscopes]
    simp

/-- Witness for C1: the concrete read-only token (client `read-only-client`,
scopes `resource/public` only) is issued to the read-only client and is
rejected by the authorizer at the secure route's required scope. -/
theorem authorizer_contract_witness :
    authorizerAccepts
        (CdkAwsApiGatewaySecurityStack.construct "CdkAwsApiGatewaySecurityStack" none).authorizer
        ["resource/secure"]
        (some { clientId := "read-only-client", scopes := ["resource/public"] }) = false :=
  (authorizer_contract "CdkAwsApiGatewaySecurityStack" none
      { clientId := "read-only-client", scopes := ["resource/public"] }).2.2.2.2.1
    (by decide)

/-- C2: the stack binds the route with path `/api/public` to required
authorization scope `resource/public` and to the public entry point (handler
`app`, entry `.../src/public/index.ts`), and the route with path
`/api/secure` to required scope `resource/secure` and the secure entry point
(handler `secure`, entry `.../src/secure/index.ts`); every route's
authorizer is the one authorizer instance of the stack. -/
theorem routes_bound_to_scopes_and_handlers (cid : String) (props : Option StackProps) :
    ((CdkAwsApiGatewaySecurityStack.construct cid props).httpApi.routes.map
        (fun r => (r.path, r.authorizationScopes, r.integration.handler)) =
      [("/api/secure", ["resource/secure"],
          (CdkAwsApiGatewaySecurityStack.construct cid props).secureLambda),
       ("/api/public", ["resource/public"],
          (CdkAwsApiGatewaySecurityStack.construct cid props).publicLambda)]) ∧
    ((CdkAwsApiGatewaySecurityStack.construct cid props).secureLambda.handler = "secure" ∧
      (CdkAwsApiGatewaySecurityStack.construct cid props).secureLambda.entry =
        pathJoin dirnameOfLib "/../src/secure/index.ts") ∧
    ((CdkAwsApiGatewaySecurityStack.construct cid props).publicLambda.handler = "app" ∧
      (CdkAwsApiGatewaySecurityStack.construct cid props).publicLambda.entry =
        pathJoin dirnameOfLib "/../src/public/index.ts") ∧
    ((CdkAwsApiGatewaySecurityStack.construct cid props).httpApi.routes.map Route.authorizer =
      [(CdkAwsApiGatewaySecurityStack.construct cid props).authorizer,
       (CdkAwsApiGatewaySecurityStack.construct cid props).authorizer]) :=
  ⟨rfl, ⟨rfl, rfl⟩, ⟨rfl, rfl⟩, rfl⟩

/-- C3: the resource server declares exactly the scopes `public` and
`secure` under identifier `resource`, and each of the two clients' granted
scope strings all occur among the resource server's declared full scope
strings. -/
theorem client_scopes_subset_of_declared (cid : String) (props : Option StackProps) :
    ((CdkAwsApiGatewaySecurityStack.construct cid props).resourceServer.userPoolResourceServerId =
      "resource") ∧
    ((CdkAwsApiGatewaySecurityStack.construct cid props).resourceServer.scopes.map
        ResourceServerScope.scopeName = ["public", "secure"]) ∧
    ((CdkAwsApiGatewaySecurityStack.construct cid props).readOnlyClient.oAuth.scopes.all
        (fun sc =>
          (declaredScopeStrings
              (CdkAwsApiGatewaySecurityStack.construct cid props).resourceServer).contains sc) =
      true) ∧
    ((CdkAwsApiGatewaySecurityStack.construct cid props).fullAccessClient.oAuth.scopes.all
        (fun sc =>
          (declaredScopeStrings
              (CdkAwsApiGatewaySecurityStack.construct cid props).resourceServer).contains sc) =
      true) :=
  ⟨rfl, rfl, rfl, rfl⟩

/-- C4: the read-only client is granted only the full scope string of the
`public` scope, the full-access client is granted those of both `public`
and `secure`; every read-only scope occurs among the full-access scopes
while `resource/secure` occurs among the full-access scopes and not among
the read-only ones, so the inclusion is strict. -/
theorem full_access_scopes_strict_superset (cid : String) (props : Option StackProps) :
    ((CdkAwsApiGatewaySecurityStack.construct cid props).readOnlyClient.oAuth.scopes =
      ["resource/public"]) ∧
    ((CdkAwsApiGatewaySecurityStack.construct cid props).fullAccessClient.oAuth.scopes =
      ["resource/public", "resource/secure"]) ∧
    ((CdkAwsApiGatewaySecurityStack.construct cid props).readOnlyClient.oAuth.scopes.all
        (fun sc =>
          (CdkAwsApiGatewaySecurityStack.construct cid props).fullAccessClient.oAuth.scopes.contains
            sc) = true) ∧
    ((CdkAwsApiGatewaySecurityStack.construct cid props).fullAccessClient.oAuth.scopes.contains
        "resource/secure" = true) ∧
    ((CdkAwsApiGatewaySecurityStack.construct cid props).readOnlyClient.oAuth.scopes.contains
        "resource/secure" = false) :=
  ⟨rfl, rfl, rfl, rfl, rfl⟩

/-- C5: the HTTP API owns exactly two routes, all routes carry only the GET
method, and the two paths are the distinct strings `/api/secure` and
`/api/public` (in source order of the `addRoutes` calls). -/
theorem exactly_two_get_routes (cid : String) (props : Option StackProps) :
    ((CdkAwsApiGatewaySecurityStack.construct cid props).httpApi.routes.length = 2) ∧
    ((CdkAwsApiGatewaySecurityStack.construct cid props).httpApi.routes.map Route.path =
      ["/api/secure", "/api/public"]) ∧
    ((CdkAwsApiGatewaySecurityStack.construct cid props).httpApi.routes.all
        (fun r => r.methods == [HttpMethod.GET]) = true) ∧
    ("/api/secure" : String) ≠ "/api/public" :=
  ⟨rfl, rfl, rfl, by decide⟩

/-- C6: every authorization-scope string required by a route of the stack
occurs among the full scope strings `<identifier>/<scopeName>` declared by
the resource server, whose identifier is `resource` and whose scope names
are `public` and `secure`. -/
theorem route_scopes_exist_on_resource_server (cid : String) (props : Option StackProps) :
    ((CdkAwsApiGatewaySecurityStack.construct cid props).httpApi.routes.all
        (fun r => r.authorizationScopes.all
          (fun sc =>
            (declaredScopeStrings
                (CdkAwsApiGatewaySecurityStack.construct cid props).resourceServer).contains sc)) =
      true) ∧
    (declaredScopeStrings
        (CdkAwsApiGatewaySecurityStack.construct cid props).resourceServer =
      ["resource/public", "resource/secure"]) :=
  ⟨rfl, rfl⟩

/-- C7: the two client declarations agree on every configuration attribute
other than the granted scope set: same four enabled authentication flows,
same OAuth grant flows (client-credentials only), same secret generation,
same sole identity provider, same user pool — while their granted scope
lists differ. -/
theorem clients_differ_only_in_scopes (cid : String) (props : Option StackProps) :
    ((CdkAwsApiGatewaySecurityStack.construct cid props).readOnlyClient.authFlows =
      (CdkAwsApiGatewaySecurityStack.construct cid props).fullAccessClient.authFlows) ∧
    ((CdkAwsApiGatewaySecurityStack.construct cid props).readOnlyClient.oAuth.flows =
      (CdkAwsApiGatewaySecurityStack.construct cid props).fullAccessClient.oAuth.flows) ∧
    ((CdkAwsApiGatewaySecurityStack.construct cid props).readOnlyClient.generateSecret =
      (CdkAwsApiGatewaySecurityStack.construct cid props).fullAccessClient.generateSecret) ∧
    ((CdkAwsApiGatewaySecurityStack.construct cid props).readOnlyClient.supportedIdentityProviders =
      (CdkAwsApiGatewaySecurityStack.construct cid props).fullAccessClient.supportedIdentityProviders) ∧
    ((CdkAwsApiGatewaySecurityStack.construct cid props).readOnlyClient.userPool =
      (CdkAwsApiGatewaySecurityStack.construct cid props).fullAccessClient.userPool) ∧
    ((CdkAwsApiGatewaySecurityStack.construct cid props).readOnlyClient.authFlows =
      { adminUserPassword := true, userPassword := true, custom := true, userSrp := true }) ∧
    ((CdkAwsApiGatewaySecurityStack.construct cid props).readOnlyClient.oAuth.flows =
      { authorizationCodeGrant := false, implicitCodeGrant := false, clientCredentials := true }) ∧
    ((CdkAwsApiGatewaySecurityStack.construct cid props).readOnlyClient.generateSecret = true) ∧
    ((CdkAwsApiGatewaySecurityStack.construct cid props).readOnlyClient.supportedIdentityProviders =
      [UserPoolClientIdentityProvider.COGNITO]) ∧
    ((CdkAwsApiGatewaySecurityStack.construct cid props).readOnlyClient.oAuth.scopes ≠
      (CdkAwsApiGatewaySecurityStack.construct cid props).fullAccessClient.oAuth.scopes) :=
  ⟨rfl, rfl, rfl, rfl, rfl, rfl, rfl, rfl, rfl, by
    intro h
    have hlen : (1 : Nat) = 2 := congrArg List.length h
    exact absurd hlen (by decide)⟩

/-- C8: the user pool is provisioned with self-service sign-up enabled,
email as sign-in alias, email auto-verification, a password policy of
minimum length 6 with no required character classes, and email-only
account recovery. -/
theorem user_pool_provisioning_config (cid : String) (props : Option StackProps) :
    ((CdkAwsApiGatewaySecurityStack.construct cid props).userPool.selfSignUpEnabled = true) ∧
    ((CdkAwsApiGatewaySecurityStack.construct cid props).userPool.signInAliases =
      { email := true }) ∧
    ((CdkAwsApiGatewaySecurityStack.construct cid props).userPool.autoVerify =
      { email := true }) ∧
    ((CdkAwsApiGatewaySecurityStack.construct cid props).userPool.passwordPolicy =
      { minLength := 6, requireLowercase := false, requireDigits := false,
        requireUppercase := false, requireSymbols := false }) ∧
    ((CdkAwsApiGatewaySecurityStack.construct cid props).userPool.accountRecovery =
      AccountRecovery.EMAIL_ONLY) :=
  ⟨rfl, rfl, rfl, rfl, rfl⟩

/-- C9: any two instantiations of the stack, whatever the construct id and
props, produce the same user-pool name `my-user-pool` and the same Cognito
OAuth domain prefix `client-credentials-demo`, so parallel deployments
receive identical global names. -/
theorem global_names_constant_across_instantiations
    (cidA : String) (propsA : Option StackProps)
    (cidB : String) (propsB : Option StackProps) :
    ((CdkAwsApiGatewaySecurityStack.construct cidA propsA).userPool.userPoolName =
      (CdkAwsApiGatewaySecurityStack.construct cidB propsB).userPool.userPoolName) ∧
    ((CdkAwsApiGatewaySecurityStack.construct cidA propsA).cognitoDomain.domainPfx =
      (CdkAwsApiGatewaySecurityStack.construct cidB propsB).cognitoDomain.domainPfx) ∧
    ((CdkAwsApiGatewaySecurityStack.construct cidA propsA).userPool.userPoolName =
      "my-user-pool") ∧
    ((CdkAwsApiGatewaySecurityStack.construct cidA propsA).cognitoDomain.domainPfx =
      "client-credentials-demo") :=
  ⟨rfl, rfl, rfl, rfl⟩

/-- C10: every instantiation of the stack provisions the user pool with
removal policy DESTROY, so removing the stack deletes the identity store
rather than retaining it. -/
theorem user_pool_removal_policy_destroy (cid : String) (props : Option StackProps) :
    (CdkAwsApiGatewaySecurityStack.construct cid props).userPool.removalPolicy =
      RemovalPolicy.DESTROY :=
  rfl

end ApiGwSec
